import Mathlib

/-!
# Verification of the DatarefW binding layer (src/datarefw.hpp)

Shallow embedding of the windowed transfer callbacks, the consumer
(`FindDataref`) bind/set/index paths and the publisher (`CreateDataref`)
storage operators of `datarefw.hpp`.

Modelling conventions:
* C++ `int` parameters (`offset`, `max`, `count`) are `Int`.
* Storage (`std::vector`, `std::string`) is a `List`; byte values are `Nat`.
* A `DATAREFW_ASSERT` failure aborts the program: modelled as `none` in an
  `Option`-valued result.
* A destination/source buffer supplied by the host is `Option (List _)`;
  `none` is the null pointer.
* An out-of-bounds element read (undefined behaviour in C++) is modelled by
  `List.getD _ junk` with a caller-supplied `junk` value; an out-of-bounds
  element write by `List.set`, which leaves the list unchanged — the model
  additionally records the list of storage indices the code attempts to
  touch, so that bounds claims can be stated about the attempted accesses
  themselves.
-/

namespace DatarefW

/-- Result of a windowed read callback: the destination buffer after the
call (`none` when the host passed a null pointer), the returned count, and
the list of storage indices whose elements the code reads. -/
structure ArrReadOut (α : Type) where
  buffer : Option (List α)
  ret : Int
  readsFrom : List Int
deriving Repr, DecidableEq

/-- The copy loop `for (i = 0; i < n; ++i) buf[i] = storage[i + off];`
shared by `impl_dr_read_tmplt_arr` and the `memcpy` in
`impl_dr_read_byte`. -/
def copyLoop (junk : α) (storage : List α) (off : Nat) (n : Nat) (buf : List α) : List α :=
  (List.range n).foldl (fun b i => b.set i (storage.getD (i + off) junk)) buf

/-- Model of `impl_dr_read_tmplt_arr` (datarefw.hpp:793-818): windowed read callback
for `DrIntArr` / `DrFloatArr` publisher storage.  Computes
`a_sz = storage.size()`; a null buffer is a length probe returning `a_sz`;
otherwise asserts `offset >= 0`, sets
`upper_limit = (offset + max < a_sz) ? max : a_sz`, copies
`storage[i + offset]` into `values[i]` for `i < upper_limit` and returns
`upper_limit`. -/
def impl_dr_read_tmplt_arr (junk : α) (storage : List α) (values : Option (List α))
    (offset max : Int) : Option (ArrReadOut α) :=
  let a_sz : Int := storage.length
  match values with
  | none => some ⟨none, a_sz, []⟩
  | some buf =>
    if offset < 0 then none
    else
      let upper_limit : Int := if offset + max < a_sz then max else a_sz
      some ⟨some (copyLoop junk storage offset.toNat upper_limit.toNat buf),
            upper_limit,
            (List.range upper_limit.toNat).map (fun i => (i : Int) + offset)⟩

/-- Model of `impl_dr_write_tmplt_arr` (datarefw.hpp:774-791): windowed write
callback for array publisher storage.  A null buffer returns at once;
otherwise asserts `offset >= 0` and runs
`for (i = 0; i < count; ++i) { value_ptr = values; value_ptr += offset;
storage[i] = *value_ptr; }` — note the source pointer is re-based to
`values + offset` on every iteration, so every written slot receives
`values[offset]`.  Returns the new storage and the list of storage indices
the loop writes. -/
def impl_dr_write_tmplt_arr (junk : α) (storage : List α) (values : Option (List α))
    (offset count : Int) : Option (List α × List Int) :=
  match values with
  | none => some (storage, [])
  | some buf =>
    if offset < 0 then none
    else
      some ((List.range count.toNat).foldl
              (fun s i => s.set i (buf.getD offset.toNat junk)) storage,
            (List.range count.toNat).map (fun i => (i : Int)))

/-- Model of `impl_dr_read_byte` (datarefw.hpp:741-772): windowed read callback for
`std::string` publisher storage.  Same shape as the array read; after the
`memcpy` it writes a terminating `0` at `values[upper_limit]` (the source's
conditional `if (cvalues[upper_limit] != 0) cvalues[upper_limit] = 0;`
leaves the same final contents as an unconditional store). -/
def impl_dr_read_byte (junk : Nat) (storage : List Nat) (values : Option (List Nat))
    (offset max : Int) : Option (ArrReadOut Nat) :=
  let a_sz : Int := storage.length
  match values with
  | none => some ⟨none, a_sz, []⟩
  | some buf =>
    if offset < 0 then none
    else
      let upper_limit : Int := if offset + max < a_sz then max else a_sz
      some ⟨some ((copyLoop junk storage offset.toNat upper_limit.toNat buf).set
                    upper_limit.toNat 0),
            upper_limit,
            (List.range upper_limit.toNat).map (fun i => (i : Int) + offset)⟩

/-- Model of `impl_dr_write_byte` (datarefw.hpp:715-739): write callback for
`std::string` publisher storage.  Returns with storage unchanged when the
source is null, `offset >= count`, or `count == 0`; otherwise asserts
`offset >= 0`, copies `ncount = count - offset` bytes from
`values + offset` into a temporary, null-terminates the temporary at index
`ncount`, and assigns `storage = std::string(temp_val)` — the C-string
constructor keeps only the bytes before the first `0`. -/
def impl_dr_write_byte (junk : Nat) (storage : List Nat) (values : Option (List Nat))
    (offset count : Int) : Option (List Nat) :=
  match values with
  | none => some storage
  | some buf =>
    if offset ≥ count ∨ count = 0 then some storage
    else if offset < 0 then none
    else
      let ncount := (count - offset).toNat
      let window := (List.range ncount).map (fun i => buf.getD (offset.toNat + i) junk)
      some (window.takeWhile (fun b => b ≠ 0))

/-- Model of `impl_dr_read_i` / `impl_dr_read_f` / `impl_dr_read_d`
(datarefw.hpp:820-848): scalar publisher read callback — returns the
stored value. -/
def impl_dr_read_scalar (storage : Int) : Int :=
  storage

/-- Model of `impl_dr_write_i` / `impl_dr_write_f` / `impl_dr_write_d`
(datarefw.hpp:826-854): scalar publisher write callback — overwrites the
stored value. -/
def impl_dr_write_scalar (_storage : Int) (val : Int) : Int :=
  val

/-- A call the consumer makes into the host. -/
inductive HostCall where
  | setInt (v : Int)
deriving Repr, DecidableEq

/-- Model of `FindDataref::impl_dr_set` for `int` (datarefw.hpp:421-428):
`impl_verify_dataref_found()` asserts `dataref_loc != nullptr` (abort if
unbound), then calls `XPLMSetDatai(dataref_loc, value)` unconditionally.
The `writable` flag is accepted here as a parameter to document that the
function never consults it.  Result: `none` on assertion abort, otherwise
the list of host calls made. -/
def impl_dr_set_int (bound : Bool) (_writable : Bool) (v : Int) : Option (List HostCall) :=
  if bound then some [HostCall.setInt v] else none

/-- Model of `FindDataref::impl_verify_dataref_writable` (datarefw.hpp:527-530):
asserts `dataref_writable != false`.  This function is declared in the
source but never called from any set path. -/
def impl_verify_dataref_writable (writable : Bool) : Option Unit :=
  if writable then some () else none

/-- The six supported static types of the wrapper (`int`, `float`,
`double`, `DrIntArr`, `DrFloatArr`, `std::string`). -/
inductive StaticType where
  | tInt
  | tFloat
  | tDouble
  | tIntArr
  | tFloatArr
  | tString
deriving Repr, DecidableEq

/-- Predicate `dr_type_is_number` (datarefw.hpp:92-97): true for `int`, `float`,
`double`. -/
def dr_type_is_number (t : StaticType) : Bool :=
  match t with
  | .tInt => true
  | .tFloat => true
  | .tDouble => true
  | _ => false

/-- Value of `xplmType_Unknown` in the X-Plane SDK. -/
def xplmType_Unknown : Nat := 0
/-- Value of `xplmType_Int` in the X-Plane SDK. -/
def xplmType_Int : Nat := 1
/-- Value of `xplmType_Float` in the X-Plane SDK. -/
def xplmType_Float : Nat := 2
/-- Value of `xplmType_Double` in the X-Plane SDK. -/
def xplmType_Double : Nat := 4
/-- Value of `xplmType_FloatArray` in the X-Plane SDK. -/
def xplmType_FloatArray : Nat := 8
/-- Value of `xplmType_IntArray` in the X-Plane SDK. -/
def xplmType_IntArray : Nat := 16
/-- Value of `xplmType_Data` in the X-Plane SDK. -/
def xplmType_Data : Nat := 32

/-- The `switch (dataref_types)` of `FindDataref::impl_find_dataref`
(datarefw.hpp:491-516): for each listed case the corresponding
`DATAREFW_ASSERT` must pass (`false` = assertion abort); a value matching
no case falls through the switch with no check at all (the switch has no
default case), which this model renders as `true`. -/
def kind_verify (types : Nat) (t : StaticType) : Bool :=
  if types = xplmType_Int then t = StaticType.tInt
  else if types = xplmType_Float then t = StaticType.tFloat
  else if types = xplmType_Double then t = StaticType.tDouble
  else if types = Nat.lor xplmType_Int (Nat.lor xplmType_Float xplmType_Double) then
    dr_type_is_number t
  else if types = xplmType_IntArray then t = StaticType.tIntArr
  else if types = xplmType_FloatArray then t = StaticType.tFloatArr
  else if types = xplmType_Data then t = StaticType.tString
  else if types = xplmType_Unknown then false
  else true

/-- Model of `FindDataref::impl_find_dataref` (datarefw.hpp:475-520) after the
name-shape assertions: `lookup` is the host's `XPLMFindDataRef` answer
(`none` = slot absent, `some types` = slot found reporting type bits
`types`); `hostWritable` is the host's `XPLMCanWriteDataRef` answer.
Result: `none` when a type-verification assertion aborts, otherwise
`some (dataref_found, dataref_writable)`. -/
def impl_find_dataref (t : StaticType) (lookup : Option Nat) (hostWritable : Bool) :
    Option (Bool × Bool) :=
  match lookup with
  | none => some (false, false)
  | some types =>
    if kind_verify types t then some (true, hostWritable) else none

/-- Model of `FindDataref::at` for array kinds (datarefw.hpp:151-157):
`DATAREFW_ASSERT(index < impl_get_array_size())` where
`impl_get_array_size` first asserts the dataref was found and then asks
the host for the slot's current length (datarefw.hpp:394-410); on success
it returns the element the host reports at `index`.  `hostLen` and
`hostElem` are the host's answers at the moment of this call — the length
is re-queried per call, never cached. -/
def FindDataref.at (bound : Bool) (hostLen : Nat) (hostElem : Nat → Int)
    (index : Nat) : Option Int :=
  if bound then
    if index < hostLen then some (hostElem index) else none
  else none

/-- Model of `CreateDataref::at` for array kinds (datarefw.hpp:585-591):
`DATAREFW_ASSERT(index < ARRAY_SIZE)` then `return dataref_storage[index]`.
`arraySize` is the `ARRAY_SIZE` template parameter; registration resizes
`dataref_storage` to exactly `ARRAY_SIZE` (datarefw.hpp:937). -/
def CreateDataref.at (junk : Int) (arraySize : Nat) (storage : List Int)
    (index : Nat) : Option Int :=
  if index < arraySize then some (storage.getD index junk) else none

/-- Model of `FindDataref::operator++()` for `int` (datarefw.hpp:159-167):
`st = impl_dr_get() + 1; impl_dr_set(st); return st;`.  `h` is the host
slot's current value; the result is `(new host value, returned value)`. -/
def FindDataref.preInc (h : Int) : Int × Int :=
  (h + 1, h + 1)

/-- Model of `FindDataref::operator++(int)` for `int` (datarefw.hpp:169-175):
`return operator++();`. -/
def FindDataref.postInc (h : Int) : Int × Int :=
  FindDataref.preInc h

/-- Model of `FindDataref::operator--()` for `int` (datarefw.hpp:177-185). -/
def FindDataref.preDec (h : Int) : Int × Int :=
  (h - 1, h - 1)

/-- Model of `FindDataref::operator--(int)` for `int` (datarefw.hpp:187-193):
`return operator--();`. -/
def FindDataref.postDec (h : Int) : Int × Int :=
  FindDataref.preDec h

/-- Model of `CreateDataref::operator++()` (datarefw.hpp:593-598):
`dataref_storage++; return dataref_storage;` — result is
`(new storage value, returned value)`. -/
def CreateDataref.preInc (s : Int) : Int × Int :=
  (s + 1, s + 1)

/-- Model of `CreateDataref::operator++(int)` (datarefw.hpp:600-604):
`return operator++();`. -/
def CreateDataref.postInc (s : Int) : Int × Int :=
  CreateDataref.preInc s

/-- Model of `CreateDataref::operator--()` (datarefw.hpp:606-611). -/
def CreateDataref.preDec (s : Int) : Int × Int :=
  (s - 1, s - 1)

/-- Model of `CreateDataref::operator--(int)` (datarefw.hpp:613-617):
`return operator--();`. -/
def CreateDataref.postDec (s : Int) : Int × Int :=
  CreateDataref.preDec s

/-- The 26 bytes of the string "abcdefghijklmnopqrstuvwxyz" used by the
byte-string publisher scenario of the spec and of src/tests/test.cpp. -/
def alphabetBytes : List Nat :=
  (List.range 26).map (fun i => i + 97)

/-! ## Helper lemmas about the copy loop -/

theorem copyLoop_length (junk : α) (storage : List α) (off n : Nat) (buf : List α) :
    (copyLoop junk storage off n buf).length = buf.length := by
  induction n with
  | zero => rfl
  | succ n ih =>
    rw [copyLoop, List.range_succ, List.foldl_append, List.foldl_cons, List.foldl_nil,
      List.length_set]
    exact ih

theorem copyLoop_getElem? (junk : α) (storage : List α) (off n : Nat) (buf : List α) (j : Nat) :
    (copyLoop junk storage off n buf)[j]? =
      if j < n ∧ j < buf.length then some (storage.getD (j + off) junk) else buf[j]? := by
  induction n with
  | zero =>
    rw [if_neg (fun h => Nat.not_lt_zero j h.1)]
    rfl
  | succ n ih =>
    rw [copyLoop, List.range_succ, List.foldl_append, List.foldl_cons, List.foldl_nil]
    rw [show ((List.range n).foldl
        (fun b i => b.set i (storage.getD (i + off) junk)) buf) = copyLoop junk storage off n buf
      from rfl]
    rw [List.getElem?_set]
    by_cases hjn : n = j
    · subst hjn
      rw [if_pos rfl, copyLoop_length]
      by_cases hl : n < buf.length
      · rw [if_pos hl, if_pos ⟨Nat.lt_succ_self n, hl⟩]
      · rw [if_neg hl, if_neg (fun h => hl h.2), List.getElem?_eq_none (Nat.le_of_not_lt hl)]
    · rw [if_neg hjn, ih]
      have hiff : (j < n ∧ j < buf.length) ↔ (j < n + 1 ∧ j < buf.length) :=
        ⟨fun h => ⟨Nat.lt_succ_of_lt h.1, h.2⟩,
         fun h => ⟨Nat.lt_of_le_of_ne (Nat.lt_succ_iff.mp h.1) (fun e => hjn e.symm), h.2⟩⟩
      rw [if_congr hiff rfl rfl]

theorem copyLoop_eq_slice (junk : α) (storage : List α) (off n : Nat) (buf : List α)
    (hs : off + n ≤ storage.length) (hb : n ≤ buf.length) :
    copyLoop junk storage off n buf = (storage.drop off).take n ++ buf.drop n := by
  apply List.ext_getElem?
  intro j
  have hlen : ((storage.drop off).take n).length = n := by
    rw [List.length_take, List.length_drop]
    omega
  rw [copyLoop_getElem?, List.getElem?_append, hlen]
  by_cases hj : j < n
  · rw [if_pos ⟨hj, Nat.lt_of_lt_of_le hj hb⟩, if_pos hj, List.getElem?_take, if_pos hj,
      List.getElem?_drop, Nat.add_comm off j]
    have hjo : j + off < storage.length := by omega
    rw [List.getD_eq_getElem storage junk hjo, List.getElem?_eq_getElem hjo]
  · rw [if_neg (fun h => hj h.1), if_neg hj, List.getElem?_drop]
    have : n + (j - n) = j := by omega
    rw [this]

theorem range_map_getD_eq_slice (junk : α) (buf : List α) (off n : Nat)
    (h : off + n ≤ buf.length) :
    (List.range n).map (fun i => buf.getD (off + i) junk) = (buf.drop off).take n := by
  apply List.ext_getElem?
  intro j
  rw [List.getElem?_map, List.getElem?_take]
  by_cases hj : j < n
  · rw [List.getElem?_range hj, if_pos hj, List.getElem?_drop]
    have hoj : off + j < buf.length := by omega
    rw [List.getElem?_eq_getElem hoj, Option.map_some']
    rw [List.getD_eq_getElem buf junk hoj]
  · rw [if_neg hj, List.getElem?_eq_none (by rw [List.length_range]; omega)]
    rfl

/-! ## Claim theorems -/

/-- C1: the claim states that windowed reads and writes on array or
byte-string storage only touch storage indices in `[0, a_sz)`.  The code
violates it: on a 10-element storage, a read with `offset = 3, max = 8`
computes `upper_limit = a_sz = 10` (the clamp compares `offset + max`
against `a_sz` but then falls back to `a_sz` instead of `a_sz - offset`)
and reads storage indices 3..12, and an array write with `count = 5` on a
3-element storage writes storage indices 0..4 with no bound at all. -/
theorem windowed_transfer_reads_out_of_bounds :
    impl_dr_read_tmplt_arr (0 : Int) [0, 1, 2, 3, 4, 5, 6, 7, 8, 9] (some (List.replicate 10 0))
        3 8 =
      some ⟨some [3, 4, 5, 6, 7, 8, 9, 0, 0, 0], 10, [3, 4, 5, 6, 7, 8, 9, 10, 11, 12]⟩ ∧
    (12 : Int) ∈ [3, 4, 5, 6, 7, 8, 9, 10, 11, 12] ∧ ¬((12 : Int) < 10) ∧
    impl_dr_write_tmplt_arr (0 : Int) [0, 0, 0] (some [1, 2, 3, 4, 5]) 0 5 =
      some ([1, 1, 1], [0, 1, 2, 3, 4]) ∧
    (4 : Int) ∈ [0, 1, 2, 3, 4] ∧ ¬((4 : Int) < 3) := by
  decide

/-- C2 counterexample: the claim states the copied/returned count is
`min(max, a_sz - offset)` for `max > 0` and `a_sz - offset` for `max = 0`.
On a 10-element storage, `offset = 3, max = 0` returns 0 (not 7) and
copies nothing, and `offset = 3, max = 8` returns 10 (not
`min 8 7 = 7`). -/
theorem windowed_read_count_cex :
    impl_dr_read_tmplt_arr (0 : Int) [0, 1, 2, 3, 4, 5, 6, 7, 8, 9] (some (List.replicate 10 0))
        3 0 =
      some ⟨some (List.replicate 10 0), 0, []⟩ ∧
    (0 : Int) ≠ 10 - 3 ∧
    impl_dr_read_tmplt_arr (0 : Int) [0, 1, 2, 3, 4, 5, 6, 7, 8, 9] (some (List.replicate 10 0))
        3 8 =
      some ⟨some [3, 4, 5, 6, 7, 8, 9, 0, 0, 0], 10, [3, 4, 5, 6, 7, 8, 9, 10, 11, 12]⟩ ∧
    (10 : Int) ≠ min 8 (10 - 3) := by
  decide

/-- C2 (amended): with a non-null buffer and `0 ≤ offset`, the windowed
array read copies and returns exactly `max` elements starting at storage
index `offset` when `offset + max < a_sz` (so `offset = 3, max = 4` on a
10-element storage yields exactly the 4 elements at storage indices 3..6,
leaving the rest of the destination untouched); a `max = 0` request with
`offset < a_sz` copies nothing and returns 0 (not `a_sz - offset`); and
when `offset + max ≥ a_sz` the call returns `a_sz` (not `a_sz - offset`)
and attempts to read the `a_sz` storage indices starting at `offset`. -/
theorem windowed_read_count_amended :
    (∀ (junk : Int) (storage buf : List Int) (offset max : Int),
      0 ≤ offset → 0 ≤ max → offset + max < (storage.length : Int) →
      max.toNat ≤ buf.length →
      impl_dr_read_tmplt_arr junk storage (some buf) offset max =
        some ⟨some ((storage.drop offset.toNat).take max.toNat ++ buf.drop max.toNat),
              max, (List.range max.toNat).map (fun i => (i : Int) + offset)⟩) ∧
    (∀ (junk : Int) (storage buf : List Int) (offset : Int),
      0 ≤ offset → offset < (storage.length : Int) →
      impl_dr_read_tmplt_arr junk storage (some buf) offset 0 =
        some ⟨some buf, 0, []⟩) ∧
    (∀ (junk : Int) (storage buf : List Int) (offset max : Int),
      0 ≤ offset → (storage.length : Int) ≤ offset + max →
      ∃ b, impl_dr_read_tmplt_arr junk storage (some buf) offset max =
        some ⟨some b, (storage.length : Int),
              (List.range storage.length).map (fun i => (i : Int) + offset)⟩) := by
  refine ⟨?_, ?_, ?_⟩
  · intro junk storage buf offset max h0 hm hin hb
    simp only [impl_dr_read_tmplt_arr]
    rw [if_neg (not_lt.mpr h0), if_pos hin]
    rw [copyLoop_eq_slice junk storage offset.toNat max.toNat buf (by omega) hb]
  · intro junk storage buf offset h0 hlt
    simp only [impl_dr_read_tmplt_arr]
    rw [if_neg (not_lt.mpr h0), if_pos (by omega : offset + 0 < (storage.length : Int))]
    rfl
  · intro junk storage buf offset max h0 hge
    simp only [impl_dr_read_tmplt_arr]
    rw [if_neg (not_lt.mpr h0), if_neg (not_lt.mpr hge)]
    exact ⟨_, by rw [show ((storage.length : Int)).toNat = storage.length from rfl]⟩

/-- C2 witness: `offset = 3, max = 4` on the 10-element storage `[0..9]`
copies exactly the 4 elements at storage indices 3..6. -/
theorem windowed_read_count_amended_witness :
    impl_dr_read_tmplt_arr (0 : Int) [0, 1, 2, 3, 4, 5, 6, 7, 8, 9] (some [7, 7, 7, 7]) 3 4 =
      some ⟨some [3, 4, 5, 6], 4, [3, 4, 5, 6]⟩ := by
  have h := windowed_read_count_amended.1 0 [0, 1, 2, 3, 4, 5, 6, 7, 8, 9] [7, 7, 7, 7] 3 4
    (by decide) (by decide) (by decide) (by decide)
  rw [h]
  decide

/-- C3: the claim states write-then-read round-trips for scalar, array and
string kinds.  The array write callback violates it: its loop re-bases
the source pointer to `values + offset` on every iteration, so writing
`[10, 20, 30]` at `offset = 0, count = 3` into a 3-element storage leaves
the storage as `[10, 10, 10]`, and the subsequent read returns
`[10, 10, 10]`, not the written `[10, 20, 30]`.  (The scalar pair does
round-trip, as the last conjunct records.) -/
theorem publisher_array_roundtrip_violated :
    impl_dr_write_tmplt_arr (0 : Int) [0, 0, 0] (some [10, 20, 30]) 0 3 =
      some ([10, 10, 10], [0, 1, 2]) ∧
    impl_dr_read_tmplt_arr (0 : Int) [10, 10, 10] (some [0, 0, 0]) 0 3 =
      some ⟨some [10, 10, 10], 3, [0, 1, 2]⟩ ∧
    ([10, 10, 10] : List Int) ≠ [10, 20, 30] ∧
    (∀ s v : Int, impl_dr_read_scalar (impl_dr_write_scalar s v) = v) :=
  ⟨by decide, by decide, by decide, fun _ _ => rfl⟩

/-- C4: the claim states that `set` on a bound consumer whose
host-reported `writable` flag is false fails with `NotWritable` and never
invokes the host write function.  The code violates it: `impl_dr_set`
only asserts that the dataref was found and then calls the host write
unconditionally — on a bound, non-writable handle `set(5)` still issues
`XPLMSetDatai`.  The writability check `impl_verify_dataref_writable`
exists in the source (and would abort on a non-writable handle) but is
never called, so `impl_dr_set` behaves identically for both values of the
flag. -/
theorem consumer_set_ignores_writable :
    impl_dr_set_int true false 5 = some [HostCall.setInt 5] ∧
    impl_verify_dataref_writable false = none ∧
    (∀ (b w : Bool) (v : Int), impl_dr_set_int b w v = impl_dr_set_int b true v) :=
  ⟨rfl, rfl, fun _ _ _ => rfl⟩

/-- C5: the claim states that binding a consumer to a slot whose declared
kind does not correspond to the static type always fails fatally, with
the single relaxation of the composite `Integer|Float32|Float64` kind for
numeric types.  The code violates it: the verification `switch` has no
default case, so any type-bits value matching none of its seven cases is
accepted silently for every static type.  In particular
`xplmType_Int | xplmType_Float = 3` — a combination X-Plane reports for
many numeric slots — is neither a listed single kind nor the composite 7,
yet binding a `std::string` consumer to it succeeds and marks the handle
found. -/
theorem consumer_bind_silent_success :
    kind_verify 3 StaticType.tString = true ∧
    impl_find_dataref StaticType.tString (some 3) false = some (true, false) ∧
    (3 : Nat) = Nat.lor xplmType_Int xplmType_Float ∧
    (3 : Nat) ≠ Nat.lor xplmType_Int (Nat.lor xplmType_Float xplmType_Double) ∧
    (3 : Nat) ≠ xplmType_Data ∧
    dr_type_is_number StaticType.tString = false := by
  decide

/-- C6: after any byte-string windowed read that copies `upper_limit`
bytes into a non-null destination sized with the spare byte
(`upper_limit < buf.length`), the destination byte at index `upper_limit`
is 0, regardless of the stored content; and on the 26-byte alphabet
publisher a probe read returns 26 while a read with
`offset = 0, max = 10` returns the first 10 bytes followed by a 0
terminator at destination index 10. -/
theorem byte_read_null_terminates :
    (∀ (junk : Nat) (storage buf : List Nat) (offset max ul : Int),
      0 ≤ offset → 0 ≤ max →
      ul = (if offset + max < (storage.length : Int) then max else (storage.length : Int)) →
      ul.toNat < buf.length →
      ∃ b, impl_dr_read_byte junk storage (some buf) offset max =
          some ⟨some b, ul, (List.range ul.toNat).map (fun i => (i : Int) + offset)⟩ ∧
        b.getD ul.toNat 1 = 0 ∧ b.length = buf.length) ∧
    impl_dr_read_byte 0 alphabetBytes none 0 0 = some ⟨none, 26, []⟩ ∧
    impl_dr_read_byte 0 alphabetBytes (some (List.replicate 11 7)) 0 10 =
      some ⟨some [97, 98, 99, 100, 101, 102, 103, 104, 105, 106, 0], 10,
            [0, 1, 2, 3, 4, 5, 6, 7, 8, 9]⟩ := by
  refine ⟨?_, by decide, by decide⟩
  intro junk storage buf offset max ul h0 hm hul hlt
  subst hul
  refine ⟨(copyLoop junk storage offset.toNat
      (if offset + max < (storage.length : Int) then max
       else (storage.length : Int)).toNat buf).set
      (if offset + max < (storage.length : Int) then max
       else (storage.length : Int)).toNat 0, ?_, ?_, ?_⟩
  · simp only [impl_dr_read_byte]
    rw [if_neg (not_lt.mpr h0)]
  · have hlen : (copyLoop junk storage offset.toNat
        (if offset + max < (storage.length : Int) then max
         else (storage.length : Int)).toNat buf).length = buf.length :=
      copyLoop_length ..
    rw [List.getD_eq_getElem?_getD, List.getElem?_set, if_pos rfl, hlen, if_pos hlt]
    rfl
  · rw [List.length_set]
    exact copyLoop_length ..

/-- C6 witness: the terminator theorem applied to the 26-byte alphabet
storage with `offset = 0, max = 10` and an 11-byte destination. -/
theorem byte_read_null_terminates_witness :
    ∃ b, impl_dr_read_byte 0 alphabetBytes (some (List.replicate 11 7)) 0 10 =
        some ⟨some b, 10, [0, 1, 2, 3, 4, 5, 6, 7, 8, 9]⟩ ∧
      b.getD 10 1 = 0 ∧ b.length = 11 :=
  byte_read_null_terminates.1 0 alphabetBytes (List.replicate 11 7) 0 10 10
    (by decide) (by decide) (by decide) (by decide)

/-- C7: a windowed read callback invoked with a null destination buffer is
a pure length probe for every `offset` and `max` (including negative
ones — the null check precedes the `offset >= 0` assertion): it returns
the storage's current length, reads no storage element, and there is no
destination buffer to touch.  This holds for both the byte-string and the
array read callbacks. -/
theorem null_buffer_read_is_length_probe :
    (∀ (junk : Nat) (storage : List Nat) (offset max : Int),
      impl_dr_read_byte junk storage none offset max =
        some ⟨none, (storage.length : Int), []⟩) ∧
    (∀ (junk : Int) (storage : List Int) (offset max : Int),
      impl_dr_read_tmplt_arr junk storage none offset max =
        some ⟨none, (storage.length : Int), []⟩) :=
  ⟨fun _ _ _ _ => rfl, fun _ _ _ _ => rfl⟩

/-- C8: array indexed access succeeds exactly when the index is below the
current logical length and aborts (returns no value) otherwise — for a
bound consumer the length is the host's answer at the moment of the call
(`impl_get_array_size` re-queries it on every `at`), and for a publisher
whose storage has been resized to its fixed capacity `N` by registration,
the bound is `N`. -/
theorem indexed_access_bounds :
    (∀ (hostLen : Nat) (hostElem : Nat → Int) (i : Nat),
      (FindDataref.at true hostLen hostElem i).isSome = true ↔ i < hostLen) ∧
    (∀ (junk : Int) (arraySize : Nat) (storage : List Int) (i : Nat),
      storage.length = arraySize →
      ((CreateDataref.at junk arraySize storage i).isSome = true ↔ i < arraySize)) := by
  constructor
  · intro hostLen hostElem i
    unfold FindDataref.at
    by_cases h : i < hostLen <;> simp [h]
  · intro junk arraySize storage i _hlen
    unfold CreateDataref.at
    by_cases h : i < arraySize <;> simp [h]

/-- C8 witness: on a publisher of capacity 25 with 25-element storage,
access at index 24 succeeds and access at index 25 aborts (the scenario
of the spec and of src/tests/test.cpp line 65). -/
theorem indexed_access_bounds_witness :
    ((CreateDataref.at 0 25 (List.replicate 25 0) 24).isSome = true ↔ 24 < 25) ∧
    ((CreateDataref.at 0 25 (List.replicate 25 0) 25).isSome = true ↔ 25 < 25) :=
  ⟨indexed_access_bounds.2 0 25 (List.replicate 25 0) 24 (by decide),
   indexed_access_bounds.2 0 25 (List.replicate 25 0) 25 (by decide)⟩

/-- C9: on an `int` consumer and on a publisher, the post-increment and
post-decrement operators return the value after the update — they are
defined as `return operator++();` / `return operator--();`, so they are
identical to the pre- forms and never return the value held before the
update. -/
theorem post_inc_dec_return_updated_value :
    (∀ h : Int, FindDataref.postInc h = FindDataref.preInc h ∧
      FindDataref.postInc h = (h + 1, h + 1) ∧ (FindDataref.postInc h).2 ≠ h) ∧
    (∀ h : Int, FindDataref.postDec h = FindDataref.preDec h ∧
      FindDataref.postDec h = (h - 1, h - 1) ∧ (FindDataref.postDec h).2 ≠ h) ∧
    (∀ s : Int, CreateDataref.postInc s = CreateDataref.preInc s ∧
      CreateDataref.postInc s = (s + 1, s + 1) ∧ (CreateDataref.postInc s).2 ≠ s) ∧
    (∀ s : Int, CreateDataref.postDec s = CreateDataref.preDec s ∧
      CreateDataref.postDec s = (s - 1, s - 1) ∧ (CreateDataref.postDec s).2 ≠ s) := by
  refine ⟨fun h => ⟨rfl, rfl, ?_⟩, fun h => ⟨rfl, rfl, ?_⟩,
    fun s => ⟨rfl, rfl, ?_⟩, fun s => ⟨rfl, rfl, ?_⟩⟩ <;>
    simp only [FindDataref.postInc, FindDataref.preInc, FindDataref.postDec,
      FindDataref.preDec, CreateDataref.postInc, CreateDataref.preInc,
      CreateDataref.postDec, CreateDataref.preDec] <;>
    omega

/-- C10 counterexample: the claim states that a non-degenerate byte-string
write replaces the stored string with exactly the `count - offset` source
bytes starting at `offset`.  The code stores the temporary through the
`std::string` C-string constructor, which truncates at the first zero
byte: writing the 3 bytes `[65, 0, 66]` at `offset = 0, count = 3` leaves
the storage holding the single byte `[65]`, not `[65, 0, 66]`. -/
theorem byte_write_window_cex :
    impl_dr_write_byte 0 [] (some [65, 0, 66]) 0 3 = some [65] ∧
    ([65] : List Nat) ≠ [65, 0, 66] := by
  decide

/-- C10 (amended): a byte-string write with a null source, `count = 0` or
`offset ≥ count` leaves the stored string completely unchanged; otherwise
(with `0 ≤ offset < count ≤ ` source length) the stored string is
replaced by the bytes of the source window `[offset, count)` up to but
not including the first zero byte — the window itself when it is
zero-free, a truncation at the interior zero otherwise. -/
theorem byte_write_window_amended :
    (∀ (junk : Nat) (storage : List Nat) (offset count : Int),
      impl_dr_write_byte junk storage none offset count = some storage) ∧
    (∀ (junk : Nat) (storage buf : List Nat) (offset count : Int),
      offset ≥ count ∨ count = 0 →
      impl_dr_write_byte junk storage (some buf) offset count = some storage) ∧
    (∀ (junk : Nat) (storage buf : List Nat) (offset count : Int),
      0 ≤ offset → offset < count → count ≤ (buf.length : Int) →
      impl_dr_write_byte junk storage (some buf) offset count =
        some (((buf.drop offset.toNat).take (count - offset).toNat).takeWhile
                (fun b => b ≠ 0))) := by
  refine ⟨fun _ _ _ _ => rfl, ?_, ?_⟩
  · intro junk storage buf offset count hdeg
    simp only [impl_dr_write_byte]
    rw [if_pos hdeg]
  · intro junk storage buf offset count h0 hoc hcb
    simp only [impl_dr_write_byte]
    rw [if_neg (by omega), if_neg (not_lt.mpr h0)]
    rw [range_map_getD_eq_slice junk buf offset.toNat (count - offset).toNat (by omega)]

/-- C10 witness: writing the 4 source bytes `[72, 105, 0, 33]` at
`offset = 1, count = 4` stores the window `[105, 0, 33]` truncated at its
interior zero, i.e. `[105]`; and a null-source write leaves the storage
`[1, 2]` unchanged. -/
theorem byte_write_window_amended_witness :
    impl_dr_write_byte 0 [1, 2] (some [72, 105, 0, 33]) 1 4 = some [105] ∧
    impl_dr_write_byte 0 [1, 2] none 5 5 = some [1, 2] := by
  constructor
  · have h := byte_write_window_amended.2.2 0 [1, 2] [72, 105, 0, 33] 1 4
      (by decide) (by decide) (by decide)
    rw [h]
    decide
  · exact byte_write_window_amended.1 0 [1, 2] 5 5

end DatarefW
